import Mathlib

/-!
A shallow embedding of the bet-pair financial model of the BetTracker
repository (shared/schema.ts, server/storage.ts, the Dashboard pair
statistics and the OCR normalization helpers), together with theorems
settling the specification claims about it.

Decimal columns and JavaScript numbers are modelled as rationals (ℚ);
strings are Lean `String`s manipulated through their character lists.
-/

/-- Lifecycle status of one leg (the `status` enum of the `bets` table). -/
inductive BetStatus where
  | pending
  | won
  | lost
  | returned
deriving DecidableEq, Repr

/-- Position of a leg in its pair (the `betPosition` enum: "A" | "B"). -/
inductive BetPos where
  | A
  | B
deriving DecidableEq, Repr

/-- One stored bet record (a leg), mirroring the `bets` table columns of
shared/schema.ts.  Decimal columns are ℚ; nullable decimal columns are
`Option ℚ`; `createdAt` is an abstract timestamp. -/
structure Bet where
  id : String
  teamA : String
  teamB : String
  betType : String
  selectedSide : String
  bettingHouse : String
  odds : ℚ
  stake : ℚ
  payout : ℚ
  gameDate : String
  gameTime : String
  sport : String
  league : String
  status : BetStatus
  isVerified : Bool
  pairId : String
  betPosition : BetPos
  totalPairStake : Option ℚ
  profitPercentage : Option ℚ
  createdAt : Nat
deriving DecidableEq, Repr

/-- The derived pair view produced by `pairStats` in the Dashboard
component (status, total stake, net result, incomplete flag). -/
structure PairStat where
  pairId : String
  status : BetStatus
  totalStake : ℚ
  netResult : ℚ
  gameDate : String
  incomplete : Bool
deriving DecidableEq, Repr

/-- Resolution of a complete pair: the body of the Dashboard `pairStats`
computation after both legs were found (part_001 lines 72–117).
`wonLeg` picks leg A first when both report won, exactly as the source's
`statusA === 'won' ? betA : statusB === 'won' ? betB : null`. -/
def resolvePair (betA betB : Bet) : PairStat :=
  let stakeA := betA.stake
  let stakeB := betB.stake
  let totalStake := stakeA + stakeB
  let statusA := betA.status
  let statusB := betB.status
  let returnedA := statusA = BetStatus.returned
  let returnedB := statusB = BetStatus.returned
  let wonLeg : Option Bet :=
    if statusA = BetStatus.won then some betA
    else if statusB = BetStatus.won then some betB
    else none
  if statusA = BetStatus.pending ∨ statusB = BetStatus.pending then
    { pairId := betA.pairId, status := BetStatus.pending, totalStake := totalStake,
      netResult := 0, gameDate := betA.gameDate, incomplete := false }
  else if returnedA ∧ returnedB then
    { pairId := betA.pairId, status := BetStatus.returned, totalStake := totalStake,
      netResult := 0, gameDate := betA.gameDate, incomplete := false }
  else
    match wonLeg with
    | some w =>
      let returnedAmount := (if returnedA then stakeA else 0) + (if returnedB then stakeB else 0)
      { pairId := betA.pairId, status := BetStatus.won, totalStake := totalStake,
        netResult := w.payout + returnedAmount - totalStake, gameDate := betA.gameDate,
        incomplete := false }
    | none =>
      let returnedAmount := (if returnedA then stakeA else 0) + (if returnedB then stakeB else 0)
      { pairId := betA.pairId, status := BetStatus.lost, totalStake := totalStake,
        netResult := returnedAmount - totalStake, gameDate := betA.gameDate,
        incomplete := false }

/-- The incomplete-pair branch of `pairStats` (part_001 lines 58–70):
only one leg exists, so the pair is reported pending with its stake and a
zero net result, flagged incomplete. -/
def incompleteStat (existingBet : Bet) : PairStat :=
  { pairId := existingBet.pairId, status := BetStatus.pending,
    totalStake := existingBet.stake, netResult := 0,
    gameDate := existingBet.gameDate, incomplete := true }

/-- The per-pair derivation of the Dashboard `pairStats` map: locate leg A
and leg B among the bets sharing one pairId and either resolve the
complete pair or report the incomplete view.  The source pre-sorts the
bets by `betPosition` before `find`; with a stable sort this does not
change which record each positional `find` returns, so the embedding
searches the list directly. -/
def pairStatsOf (pairBets : List Bet) : Option PairStat :=
  let betA? := pairBets.find? (fun bet => bet.betPosition = BetPos.A)
  let betB? := pairBets.find? (fun bet => bet.betPosition = BetPos.B)
  match betA?, betB? with
  | none, none => none
  | some betA, some betB => some (resolvePair betA betB)
  | some existingBet, none => some (incompleteStat existingBet)
  | none, some existingBet => some (incompleteStat existingBet)

/-- Result shape of `calculatePairMetrics` (shared/schema.ts). -/
structure PairMetrics where
  totalStake : ℚ
  profitPercentageA : ℚ
  profitPercentageB : ℚ
deriving DecidableEq, Repr

/-- `calculatePairMetrics` of shared/schema.ts lines 119–129: total stake
and each leg's conditional ROI, with a guard returning 0 when the total
stake is not positive. -/
def calculatePairMetrics (stakeA stakeB payoutA payoutB : ℚ) : PairMetrics :=
  let totalStake := stakeA + stakeB
  let profitPercentageA := if totalStake > 0 then ((payoutA - totalStake) / totalStake) * 100 else 0
  let profitPercentageB := if totalStake > 0 then ((payoutB - totalStake) / totalStake) * 100 else 0
  { totalStake := totalStake,
    profitPercentageA := profitPercentageA,
    profitPercentageB := profitPercentageB }

/-- The character class of the sanitizing regex `[\u00A0\u2009\u202F\s]`:
the three explicitly listed spaces together with the JavaScript `\s`
whitespace set (the three listed characters are themselves members of
`\s`, so this is exactly the JavaScript whitespace class). -/
def isJsSpace (c : Char) : Bool :=
  c == '\u00A0' || c == '\u2009' || c == '\u202F' ||
  c == ' ' || c == '\t' || c == '\n' || c == '\u000B' || c == '\u000C' || c == '\r' ||
  c == '\u1680' || (0x2000 ≤ c.toNat && c.toNat ≤ 0x200A) ||
  c == '\u2028' || c == '\u2029' || c == '\u205F' || c == '\u3000' || c == '\uFEFF'

/-- The second `replace` of `sanitizeNumber`: every comma becomes a dot. -/
def commaToDot (c : Char) : Char := if c = ',' then '.' else c

/-- `sanitizeNumber` on character lists: strip every whitespace variant,
then turn commas into dots (part_000 lines 630–632). -/
def sanitizeChars (cs : List Char) : List Char :=
  (cs.filter (fun c => !isJsSpace c)).map commaToDot

/-- `sanitizeNumber(str) = str.replace(/[\u00A0\u2009\u202F\s]/g, '').replace(/,/g, '.')`. -/
def sanitizeNumber (s : String) : String := ⟨sanitizeChars s.data⟩

/-- Character substitution of the global replace `/\//g → '-'`. -/
def slashToDashChar (c : Char) : Char := if c = '/' then '-' else c

/-- `str.replace(/\//g, '-')`: every slash becomes a dash, character by
character, with no reordering. -/
def slashToDash (s : String) : String := ⟨s.data.map slashToDashChar⟩

/-- The string branch of `formatGameDate` inside `handleOCRConfirm`
(part_000 lines 978–985): a string containing a slash has its slashes
replaced by dashes; any other string is returned unchanged. -/
def formatGameDate (gameDate : String) : String :=
  if gameDate.data.contains '/' then slashToDash gameDate else gameDate

/-- The test `dateStr.match(/^\d{2}-\d{2}-\d{4}$/)`: exactly ten
characters, digits in the day, month and year slots and dashes at
positions 2 and 5. -/
def matchesDDMMYYYY (s : String) : Bool :=
  match s.data with
  | [d1, d2, s1, m1, m2, s2, y1, y2, y3, y4] =>
    d1.isDigit && d2.isDigit && s1 == '-' && m1.isDigit && m2.isDigit && s2 == '-' &&
    y1.isDigit && y2.isDigit && y3.isDigit && y4.isDigit
  | _ => false

/-- `split('-')` on the character list: the maximal dash-free segments,
in order. -/
def splitOnDash (cs : List Char) : List (List Char) :=
  match cs with
  | [] => [[]]
  | c :: rest =>
    let r := splitOnDash rest
    if c = '-' then [] :: r
    else
      match r with
      | h :: t => (c :: h) :: t
      | [] => [[c]]

/-- `const [day, month, year] = dateStr.split('-')` followed by
`${year}-${month}-${day}`: reorder a dash-separated date to
year-month-day (only ever applied after `matchesDDMMYYYY` succeeds). -/
def reorderToYMD (s : String) : String :=
  match splitOnDash s.data with
  | day :: month :: year :: _ =>
    (⟨year⟩ : String) ++ "-" ++ (⟨month⟩ : String) ++ "-" ++ (⟨day⟩ : String)
  | _ => s

/-- The gameDate normalization of `MemStorage.createBet` (and identically
`DatabaseStorage.createBet`) for a string input, storage.ts lines
165–179: slashes become dashes, then a DD-MM-YYYY string is converted to
YYYY-MM-DD for PostgreSQL; anything else is kept as is. -/
def storedGameDate (gameDate : String) : String :=
  let dateStr := if gameDate.data.contains '/' then slashToDash gameDate else gameDate
  if matchesDDMMYYYY dateStr then reorderToYMD dateStr else dateStr

/-- JavaScript `String.prototype.trim`: strip leading and trailing
whitespace. -/
def jsTrim (s : String) : String :=
  ⟨((s.data.dropWhile isJsSpace).reverse.dropWhile isJsSpace).reverse⟩

/-- JavaScript `String.prototype.toLowerCase`, restricted to the
character-wise lowering Lean provides. -/
def jsToLower (s : String) : String := ⟨s.data.map Char.toLower⟩

/-- `normalize`/`normalizeTeam` of the team cross-validation
(`OCRVerification.validateForm` line 79 and the `ocrDataSchema` refine):
`team.trim().toLowerCase()`. -/
def normalizeTeam (team : String) : String := jsToLower (jsTrim team)

/-- The team cross-validation of `validateForm` (OCRVerification.tsx
lines 78–83): the distinguished `teams` error is produced exactly when
the normalized team names disagree; the form data itself is never
modified. -/
def teamsError (betA_teamA betA_teamB betB_teamA betB_teamB : String) : Option String :=
  if normalizeTeam betA_teamA ≠ normalizeTeam betB_teamA ∨
     normalizeTeam betA_teamB ≠ normalizeTeam betB_teamB then
    some "Os times devem ser iguais em ambas as apostas"
  else none

/-- Shape of a leg inside the structured AI response consumed by
`convertClaudeToOCRFormat`; every field may be absent. -/
structure ClaudeLeg where
  bettingHouse : Option String
  betType : Option String
  odds : Option String
  stake : Option String
  profit : Option String
deriving DecidableEq, Repr

/-- Shape of the structured AI response: the two legs are objects that
may themselves be absent, and every scalar field may be absent. -/
structure ClaudeData where
  betA : Option ClaudeLeg
  betB : Option ClaudeLeg
  teamA : Option String
  teamB : Option String
  gameDate : Option String
  gameTime : Option String
  sport : Option String
  league : Option String
  totalProfitPercentage : Option String
deriving DecidableEq, Repr

/-- One leg of the internal OCRData shape (`singleBetOCRSchema`). -/
structure SingleBetOCR where
  bettingHouse : String
  teamA : String
  teamB : String
  betType : String
  odds : String
  stake : String
  profit : String
deriving DecidableEq, Repr

/-- The internal OCRData shape produced by the conversion (string
gameDate branch of `ocrDataSchema`). -/
structure OCRData where
  betA : SingleBetOCR
  betB : SingleBetOCR
  gameDate : String
  gameTime : String
  sport : String
  league : String
  totalProfitPercentage : String
deriving DecidableEq, Repr

/-- JavaScript `x || d` on an optional string field: absent or empty
(falsy) values yield the default. -/
def jsOrStr (v : Option String) (d : String) : String :=
  match v with
  | none => d
  | some s => if s = "" then d else s

/-- JavaScript `s.replace('%', '')` with a string pattern: remove only
the first occurrence of the percent sign. -/
def dropFirstPercent : List Char → List Char
  | [] => []
  | c :: cs => if c = '%' then cs else c :: dropFirstPercent cs

/-- The `cleanPercentage` step of `convertClaudeToOCRFormat`. -/
def removeFirstPercent (s : String) : String := ⟨dropFirstPercent s.data⟩

/-- `convertClaudeToOCRFormat` (part_000 lines 860–892).  Accessing a
field of an absent `betA`/`betB` object is a JavaScript `TypeError`,
modelled as `Except.error`; every other missing field is defaulted
(`''`, `'0'`, or `'00:00'` for `gameTime`) via the `||` operator. -/
def convertClaudeToOCRFormat (claudeData : ClaudeData) : Except String OCRData :=
  let cleanPercentage := removeFirstPercent (jsOrStr claudeData.totalProfitPercentage "0")
  let gameDate :=
    match claudeData.gameDate with
    | none => ""
    | some s => if s = "" then "" else slashToDash s
  match claudeData.betA, claudeData.betB with
  | some legA, some legB =>
    Except.ok
      { betA :=
          { bettingHouse := jsOrStr legA.bettingHouse ""
            teamA := jsOrStr claudeData.teamA ""
            teamB := jsOrStr claudeData.teamB ""
            betType := jsOrStr legA.betType ""
            odds := jsOrStr legA.odds "0"
            stake := jsOrStr legA.stake "0"
            profit := jsOrStr legA.profit "0" }
        betB :=
          { bettingHouse := jsOrStr legB.bettingHouse ""
            teamA := jsOrStr claudeData.teamA ""
            teamB := jsOrStr claudeData.teamB ""
            betType := jsOrStr legB.betType ""
            odds := jsOrStr legB.odds "0"
            stake := jsOrStr legB.stake "0"
            profit := jsOrStr legB.profit "0" }
        gameDate := gameDate
        gameTime := jsOrStr claudeData.gameTime "00:00"
        sport := jsOrStr claudeData.sport ""
        league := jsOrStr claudeData.league ""
        totalProfitPercentage := cleanPercentage }
  | _, _ => Except.error "TypeError: cannot read properties of undefined"

/-- The in-memory bet store of `MemStorage`: a keyed record store
(`Map<string, Bet>`), modelled as a partial lookup function. -/
structure MemStore where
  bets : String → Option Bet

/-- `MemStorage.updateBetStatus` (storage.ts lines 204–213): look the bet
up; when found, store a copy with only `status` replaced and return it;
otherwise return `undefined` and leave the store untouched. -/
def updateBetStatus (store : MemStore) (id : String) (status : BetStatus) :
    Option Bet × MemStore :=
  match store.bets id with
  | some bet =>
    let updatedBet : Bet := { bet with status := status }
    (some updatedBet, ⟨fun k => if k = id then some updatedBet else store.bets k⟩)
  | none => (none, store)

/-- A bet record with neutral field values, used to build concrete
examples. -/
def baseBet : Bet :=
  { id := "", teamA := "", teamB := "", betType := "", selectedSide := "",
    bettingHouse := "", odds := 1, stake := 0, payout := 0, gameDate := "",
    gameTime := "", sport := "", league := "", status := BetStatus.pending,
    isVerified := false, pairId := "", betPosition := BetPos.A,
    totalPairStake := none, profitPercentage := none, createdAt := 0 }

/-- Leg A of the spec's worked resolution example:
stake 100, status won, payout 250. -/
def exLegA : Bet :=
  { baseBet with
    id := "a1", pairId := "p1", betPosition := BetPos.A,
    stake := 100, odds := 5/2, payout := 250, status := BetStatus.won }

/-- Leg B of the spec's worked resolution example: stake 100, lost. -/
def exLegB : Bet :=
  { baseBet with
    id := "b1", pairId := "p1", betPosition := BetPos.B,
    stake := 100, odds := 2, payout := 200, status := BetStatus.lost }

/-- Two legs that both report won, for the tie-break example. -/
def exBothWonA : Bet :=
  { baseBet with
    id := "a2", pairId := "p2", betPosition := BetPos.A,
    stake := 100, payout := 250, status := BetStatus.won }

/-- Second leg of the tie-break example, also won. -/
def exBothWonB : Bet :=
  { baseBet with
    id := "b2", pairId := "p2", betPosition := BetPos.B,
    stake := 100, payout := 210, status := BetStatus.won }

/-- A structured AI response in which both leg objects are absent. -/
def claudeMissingLegs : ClaudeData :=
  { betA := none, betB := none, teamA := none, teamB := none,
    gameDate := none, gameTime := none, sport := none, league := none,
    totalProfitPercentage := none }

/-- A leg object with every field absent. -/
def emptyClaudeLeg : ClaudeLeg :=
  { bettingHouse := none, betType := none, odds := none, stake := none,
    profit := none }

/-- A structured AI response with both leg objects present but every
field absent. -/
def claudeEmptyLegs : ClaudeData :=
  { claudeMissingLegs with betA := some emptyClaudeLeg, betB := some emptyClaudeLeg }

/-- A concrete stored bet used to exercise `updateBetStatus`. -/
def sampleBet : Bet :=
  { baseBet with
    id := "bet-1", teamA := "Barcelona", teamB := "Real Madrid",
    stake := 100, payout := 250, pairId := "p1" }

/-- A store holding exactly `sampleBet` under its id. -/
def sampleStore : MemStore :=
  ⟨fun k => if k = "bet-1" then some sampleBet else none⟩

/-- A comma-to-dot substitution never produces a whitespace character. -/
theorem commaToDot_not_space (c : Char) (h : isJsSpace c = false) :
    isJsSpace (commaToDot c) = false := by
  unfold commaToDot
  split
  · decide
  · exact h

/-- The comma-to-dot substitution is idempotent characterwise. -/
theorem commaToDot_idem (c : Char) : commaToDot (commaToDot c) = commaToDot c := by
  by_cases h : c = ',' <;> simp [commaToDot, h]

/-- `sanitizeChars` is idempotent: its output contains no whitespace and
no commas, so a second pass changes nothing. -/
theorem sanitizeChars_idem (cs : List Char) :
    sanitizeChars (sanitizeChars cs) = sanitizeChars cs := by
  unfold sanitizeChars
  have hfilter :
      ((cs.filter (fun c => !isJsSpace c)).map commaToDot).filter (fun c => !isJsSpace c) =
        (cs.filter (fun c => !isJsSpace c)).map commaToDot := by
    apply List.filter_eq_self.mpr
    intro x hx
    obtain ⟨c, hc, rfl⟩ := List.mem_map.mp hx
    have hcs : isJsSpace c = false := by
      have := List.of_mem_filter hc
      simpa using this
    simpa using commaToDot_not_space c hcs
  rw [hfilter, List.map_map]
  have hcomp : commaToDot ∘ commaToDot = commaToDot := funext commaToDot_idem
  rw [hcomp]

/-- Mapping the slash-to-dash substitution over a slash-free character
list is the identity. -/
theorem map_slashToDash_of_not_contains (cs : List Char) (h : cs.contains '/' = false) :
    cs.map slashToDashChar = cs := by
  induction cs with
  | nil => rfl
  | cons c rest ih =>
    rw [List.contains_cons, Bool.or_eq_false_iff] at h
    obtain ⟨h1, h2⟩ := h
    have hc : c ≠ '/' := fun hcc => by
      subst hcc
      simp at h1
    rw [List.map_cons, ih h2]
    simp [slashToDashChar, hc]

/-- Claim C1: for a complete pair the derived status and net result
follow the resolution table: a pending leg makes the pair pending with
net 0; both returned makes it returned with net 0; a won leg (neither
pending) makes it won with net = winning payout + returned stakes −
total stake; otherwise lost with net = returned stakes − total stake;
and the worked example won/lost with payout 250 over stakes 100+100
nets 50. -/
theorem pair_resolution_table (a b : Bet) :
    ((a.status = BetStatus.pending ∨ b.status = BetStatus.pending) →
      (resolvePair a b).status = BetStatus.pending ∧ (resolvePair a b).netResult = 0) ∧
    (a.status = BetStatus.returned → b.status = BetStatus.returned →
      (resolvePair a b).status = BetStatus.returned ∧ (resolvePair a b).netResult = 0) ∧
    (a.status ≠ BetStatus.pending → b.status ≠ BetStatus.pending →
      (a.status = BetStatus.won ∨ b.status = BetStatus.won) →
      (resolvePair a b).status = BetStatus.won ∧
      (resolvePair a b).netResult =
        (if a.status = BetStatus.won then a.payout else b.payout) +
        ((if a.status = BetStatus.returned then a.stake else 0) +
         (if b.status = BetStatus.returned then b.stake else 0)) - (a.stake + b.stake)) ∧
    (a.status ≠ BetStatus.pending → b.status ≠ BetStatus.pending →
      a.status ≠ BetStatus.won → b.status ≠ BetStatus.won →
      ¬(a.status = BetStatus.returned ∧ b.status = BetStatus.returned) →
      (resolvePair a b).status = BetStatus.lost ∧
      (resolvePair a b).netResult =
        ((if a.status = BetStatus.returned then a.stake else 0) +
         (if b.status = BetStatus.returned then b.stake else 0)) - (a.stake + b.stake)) ∧
    ((resolvePair exLegA exLegB).status = BetStatus.won ∧
     (resolvePair exLegA exLegB).netResult = 50) := by
  refine ⟨?_, ?_, ?_, ?_, ?_, ?_⟩
  · intro h
    rcases h with h | h <;> constructor <;> simp [resolvePair, h]
  · intro hA hB
    constructor <;> simp [resolvePair, hA, hB]
  · intro hA hB hw
    cases ha : a.status <;> cases hb : b.status <;> simp_all [resolvePair]
  · intro hA hB hwA hwB hr
    cases ha : a.status <;> cases hb : b.status <;> simp_all [resolvePair]
  · simp [resolvePair, exLegA, exLegB, baseBet]
  · simp [resolvePair, exLegA, exLegB, baseBet]
    norm_num

/-- Witness for C1: the won case of the resolution table evaluated on
the worked example pair. -/
theorem pair_resolution_table_witness :
    (resolvePair exLegA exLegB).status = BetStatus.won ∧
    (resolvePair exLegA exLegB).netResult =
      (if exLegA.status = BetStatus.won then exLegA.payout else exLegB.payout) +
      ((if exLegA.status = BetStatus.returned then exLegA.stake else 0) +
       (if exLegB.status = BetStatus.returned then exLegB.stake else 0)) -
      (exLegA.stake + exLegB.stake) :=
  (pair_resolution_table exLegA exLegB).2.2.1 (by decide) (by decide) (by decide)

/-- Claim C2: `calculatePairMetrics` returns totalStake = stakeA +
stakeB and, when the total stake is positive, the two conditional ROI
percentages ((payout − totalStake) / totalStake) × 100; on
(100, 100, 250, 0) it returns totalStake 200, 25% and −100%. -/
theorem calculatePairMetrics_formula (sA sB pA pB : ℚ) :
    (calculatePairMetrics sA sB pA pB).totalStake = sA + sB ∧
    (sA + sB > 0 →
      (calculatePairMetrics sA sB pA pB).profitPercentageA = ((pA - (sA + sB)) / (sA + sB)) * 100 ∧
      (calculatePairMetrics sA sB pA pB).profitPercentageB = ((pB - (sA + sB)) / (sA + sB)) * 100) ∧
    calculatePairMetrics 100 100 250 0 = ⟨200, 25, -100⟩ := by
  refine ⟨rfl, fun h => ⟨?_, ?_⟩, by simp [calculatePairMetrics]; norm_num⟩ <;>
    simp [calculatePairMetrics, if_pos h]

/-- Witness for C2: the positive-total-stake formulas evaluated at the
spec's example input (100, 100, 250, 0). -/
theorem calculatePairMetrics_formula_witness :
    (calculatePairMetrics 100 100 250 0).profitPercentageA =
        (((250 : ℚ) - (100 + 100)) / (100 + 100)) * 100 ∧
    (calculatePairMetrics 100 100 250 0).profitPercentageB =
        (((0 : ℚ) - (100 + 100)) / (100 + 100)) * 100 :=
  (calculatePairMetrics_formula 100 100 250 0).2.1 (by norm_num)

/-- Claim C3: when stakeA + stakeB = 0 both profit percentages are 0 and
the total stake is 0; the guard makes the function total, so no division
by zero is ever performed (in particular on the all-zero input). -/
theorem calculatePairMetrics_zero_total (sA sB pA pB : ℚ) (h : sA + sB = 0) :
    (calculatePairMetrics sA sB pA pB).totalStake = 0 ∧
    (calculatePairMetrics sA sB pA pB).profitPercentageA = 0 ∧
    (calculatePairMetrics sA sB pA pB).profitPercentageB = 0 ∧
    calculatePairMetrics 0 0 0 0 = ⟨0, 0, 0⟩ := by
  refine ⟨?_, ?_, ?_, by simp [calculatePairMetrics]⟩ <;> simp [calculatePairMetrics, h]

/-- Witness for C3: the zero-total-stake guard evaluated at the all-zero
input. -/
theorem calculatePairMetrics_zero_total_witness :
    (calculatePairMetrics 0 0 0 0).totalStake = 0 ∧
    (calculatePairMetrics 0 0 0 0).profitPercentageA = 0 ∧
    (calculatePairMetrics 0 0 0 0).profitPercentageB = 0 ∧
    calculatePairMetrics 0 0 0 0 = ⟨0, 0, 0⟩ :=
  calculatePairMetrics_zero_total 0 0 0 0 (by norm_num)

/-- Claim C4: a pair with exactly one stored leg is reported as pending
with net result 0, total stake equal to that leg's stake and
incomplete = true, while every complete-pair resolution reports
incomplete = false, keeping the two situations distinguishable. -/
theorem incomplete_pair_view (b a c : Bet) :
    pairStatsOf [b] = some
      { pairId := b.pairId, status := BetStatus.pending, totalStake := b.stake,
        netResult := 0, gameDate := b.gameDate, incomplete := true } ∧
    (resolvePair a c).incomplete = false := by
  constructor
  · cases hp : b.betPosition <;> simp [pairStatsOf, List.find?, hp, incompleteStat]
  · cases ha : a.status <;> cases hc : c.status <;> simp [resolvePair, ha, hc]

/-- Counterexample for C5: the bet persisted for the input date
"26/09/2025" carries gameDate "2025-09-26" (the createBet PostgreSQL
conversion), not the dash-delimited DD-MM-YYYY string "26-09-2025" the
claim asserts. -/
theorem storedGameDate_counterexample :
    storedGameDate "26/09/2025" = "2025-09-26" ∧
    storedGameDate "26/09/2025" ≠ "26-09-2025" := by
  constructor
  · decide
  · decide

/-- Claim C5 as amended: the OCR-confirm canonicalization
(`formatGameDate`) is a straight character substitution of '/' by '-'
with no field reordering, taking "26/09/2025" to "26-09-2025"; but
`createBet` then converts the DD-MM-YYYY string to YYYY-MM-DD for
PostgreSQL, so the persisted gameDate is "2025-09-26". -/
theorem gameDate_substitution_and_storage (s : String) :
    formatGameDate s = slashToDash s ∧
    formatGameDate "26/09/2025" = "26-09-2025" ∧
    storedGameDate "26/09/2025" = "2025-09-26" := by
  refine ⟨?_, by decide, by decide⟩
  unfold formatGameDate
  split
  · rfl
  · rename_i h
    have h' : s.data.contains '/' = false := by
      simpa using h
    unfold slashToDash
    exact (congrArg String.mk (map_slashToDash_of_not_contains s.data h')).symm

/-- Claim C6: the team cross-validation run before a pair may be
confirmed normalizes both team names by trimming and lowercasing, so
names differing only in case or surrounding whitespace pass, while a
genuine mismatch yields the distinguished `teams` error message. -/
theorem teams_check_normalized (aA aB bA bB : String) :
    (normalizeTeam aA = normalizeTeam bA → normalizeTeam aB = normalizeTeam bB →
      teamsError aA aB bA bB = none) ∧
    (normalizeTeam aA ≠ normalizeTeam bA ∨ normalizeTeam aB ≠ normalizeTeam bB →
      teamsError aA aB bA bB = some "Os times devem ser iguais em ambas as apostas") ∧
    teamsError "Flamengo" "Vasco" "flamengo " "vasco" = none := by
  refine ⟨?_, ?_, by decide⟩
  · intro h1 h2
    simp [teamsError, h1, h2]
  · intro h
    unfold teamsError
    rw [if_pos h]

/-- Witness for C6: the normalized comparison applied to the spec's
example, a trailing space and different casing on both team fields. -/
theorem teams_check_normalized_witness :
    teamsError "Flamengo" "Vasco" "flamengo " "VASCO" = none :=
  (teams_check_normalized "Flamengo" "Vasco" "flamengo " "VASCO").1 (by decide) (by decide)

/-- Claim C7: `sanitizeNumber` is idempotent, and on "1 234,56" it
strips the whitespace and converts the comma to a dot, giving
"1234.56". -/
theorem sanitizeNumber_idem (s : String) :
    sanitizeNumber (sanitizeNumber s) = sanitizeNumber s ∧
    sanitizeNumber "1 234,56" = "1234.56" := by
  constructor
  · exact congrArg String.mk (sanitizeChars_idem s.data)
  · decide

/-- Counterexample for C8: with the `betA`/`betB` leg objects absent the
conversion dereferences an undefined object and throws instead of
returning an OCRData value. -/
theorem convertClaude_missing_leg_error :
    convertClaudeToOCRFormat claudeMissingLegs =
      Except.error "TypeError: cannot read properties of undefined" ∧
    (convertClaudeToOCRFormat claudeMissingLegs).isOk = false :=
  ⟨rfl, rfl⟩

/-- Claim C8 as amended: whenever the `betA` and `betB` leg objects are
present, `convertClaudeToOCRFormat` never throws, and every missing
field is defaulted to "", "0", or "00:00" for gameTime, yielding a
fully populated OCRData value. -/
theorem convertClaude_defaults_when_legs_present (c : ClaudeData) (legA legB : ClaudeLeg)
    (hA : c.betA = some legA) (hB : c.betB = some legB) :
    (convertClaudeToOCRFormat c).isOk = true ∧
    convertClaudeToOCRFormat claudeEmptyLegs = Except.ok
      { betA := { bettingHouse := "", teamA := "", teamB := "", betType := "",
                  odds := "0", stake := "0", profit := "0" }
        betB := { bettingHouse := "", teamA := "", teamB := "", betType := "",
                  odds := "0", stake := "0", profit := "0" }
        gameDate := "", gameTime := "00:00", sport := "", league := "",
        totalProfitPercentage := "0" } := by
  constructor
  · simp [convertClaudeToOCRFormat, hA, hB, Except.isOk, Except.toBool]
  · rfl

/-- Witness for C8: the conversion applied to a response whose leg
objects are present but have every field absent. -/
theorem convertClaude_defaults_witness :
    convertClaudeToOCRFormat claudeEmptyLegs = Except.ok
      { betA := { bettingHouse := "", teamA := "", teamB := "", betType := "",
                  odds := "0", stake := "0", profit := "0" }
        betB := { bettingHouse := "", teamA := "", teamB := "", betType := "",
                  odds := "0", stake := "0", profit := "0" }
        gameDate := "", gameTime := "00:00", sport := "", league := "",
        totalProfitPercentage := "0" } :=
  (convertClaude_defaults_when_legs_present claudeEmptyLegs emptyClaudeLeg emptyClaudeLeg
    rfl rfl).2

/-- Claim C9: when both legs report won the resolution does not crash;
the pair is won and leg A (first in the fixed A-before-B ordering) is
treated as the winning leg, so the net result is leg A's payout minus
the total stake. -/
theorem both_won_picks_first_leg (a b : Bet)
    (hA : a.status = BetStatus.won) (hB : b.status = BetStatus.won) :
    (resolvePair a b).status = BetStatus.won ∧
    (resolvePair a b).netResult = a.payout - (a.stake + b.stake) := by
  constructor <;> simp [resolvePair, hA, hB]

/-- Witness for C9: the tie-break evaluated on two concrete won legs. -/
theorem both_won_picks_first_leg_witness :
    (resolvePair exBothWonA exBothWonB).status = BetStatus.won ∧
    (resolvePair exBothWonA exBothWonB).netResult =
      exBothWonA.payout - (exBothWonA.stake + exBothWonB.stake) :=
  both_won_picks_first_leg exBothWonA exBothWonB rfl rfl

/-- Claim C10: `updateBetStatus` replaces only the status field of the
addressed bet — every other field of that bet and every other stored bet
are unchanged — and on an unknown id it returns `undefined` and leaves
the store untouched. -/
theorem updateBetStatus_frame (store : MemStore) (id : String) (s : BetStatus) :
    (∀ b : Bet, store.bets id = some b →
      (updateBetStatus store id s).1 = some { b with status := s } ∧
      (updateBetStatus store id s).2.bets id = some { b with status := s } ∧
      (∀ k, k ≠ id → (updateBetStatus store id s).2.bets k = store.bets k) ∧
      ({ b with status := s }).status = s ∧
      ({ b with status := s }).id = b.id ∧
      ({ b with status := s }).teamA = b.teamA ∧
      ({ b with status := s }).teamB = b.teamB ∧
      ({ b with status := s }).betType = b.betType ∧
      ({ b with status := s }).selectedSide = b.selectedSide ∧
      ({ b with status := s }).bettingHouse = b.bettingHouse ∧
      ({ b with status := s }).odds = b.odds ∧
      ({ b with status := s }).stake = b.stake ∧
      ({ b with status := s }).payout = b.payout ∧
      ({ b with status := s }).gameDate = b.gameDate ∧
      ({ b with status := s }).gameTime = b.gameTime ∧
      ({ b with status := s }).sport = b.sport ∧
      ({ b with status := s }).league = b.league ∧
      ({ b with status := s }).isVerified = b.isVerified ∧
      ({ b with status := s }).pairId = b.pairId ∧
      ({ b with status := s }).betPosition = b.betPosition ∧
      ({ b with status := s }).totalPairStake = b.totalPairStake ∧
      ({ b with status := s }).profitPercentage = b.profitPercentage ∧
      ({ b with status := s }).createdAt = b.createdAt) ∧
    (store.bets id = none → updateBetStatus store id s = (none, store)) := by
  constructor
  · intro b hb
    refine ⟨?_, ?_, ?_, rfl, rfl, rfl, rfl, rfl, rfl, rfl, rfl, rfl, rfl, rfl, rfl,
      rfl, rfl, rfl, rfl, rfl, rfl, rfl, rfl⟩
    · simp [updateBetStatus, hb]
    · simp [updateBetStatus, hb]
    · intro k hk
      simp [updateBetStatus, hb, hk]
  · intro h
    simp [updateBetStatus, h]

/-- Witness for C10: the frame property evaluated on a one-bet store,
both for the stored id and for a missing id. -/
theorem updateBetStatus_frame_witness :
    (updateBetStatus sampleStore "bet-1" BetStatus.won).1 =
      some { sampleBet with status := BetStatus.won } ∧
    updateBetStatus sampleStore "missing" BetStatus.won = (none, sampleStore) :=
  ⟨((updateBetStatus_frame sampleStore "bet-1" BetStatus.won).1 sampleBet (by decide)).1,
   (updateBetStatus_frame sampleStore "missing" BetStatus.won).2 (by decide)⟩
